import Mathlib

/-!
Verification development for an SMTP server written in Rust.

Rust strings are modelled as lists of bytes (`Bytes`), matching `String`/`&str`
at the UTF-8 byte level: `len()` is byte length, slicing and `ends_with` are
byte-wise.  Fallible Rust code is modelled with `Except`/`Option`; panics are
modelled as a distinguished abnormal outcome.  Loops that consume socket input
are modelled over an explicit finite trace of read results, one list entry per
underlying read; an exhausted trace means the loop is still running.
-/

deriving instance DecidableEq for Except

namespace SmtpServer

/-- Rust strings as UTF-8 byte sequences. -/
abbrev Bytes := List Nat

/-- Byte encoding of an ASCII Lean string literal (all literals used in the
sources are ASCII, where the UTF-8 bytes are the code points). -/
def strBytes (s : String) : Bytes :=
  s.toList.map Char.toNat

/-- UTF-8 continuation byte test (`0x80..=0xBF`). -/
def isUtf8Cont (b : Nat) : Bool :=
  0x80 ≤ b && b ≤ 0xBF

/-- Allowed second byte of a multi-byte UTF-8 sequence, given the first byte
(the ranges of the standard UTF-8 validation automaton, as used by Rust
`core::str`). -/
def utf8SndOk (b1 b2 : Nat) : Bool :=
  if b1 = 0xE0 then 0xA0 ≤ b2 && b2 ≤ 0xBF
  else if b1 = 0xED then 0x80 ≤ b2 && b2 ≤ 0x9F
  else if b1 = 0xF0 then 0x90 ≤ b2 && b2 ≤ 0xBF
  else if b1 = 0xF4 then 0x80 ≤ b2 && b2 ≤ 0x8F
  else isUtf8Cont b2

/-- UTF-8 validity of a byte sequence: the check performed by Rust
`String::from_utf8`. -/
def utf8IsValid : Bytes → Bool
  | [] => true
  | b1 :: rest =>
    if b1 ≤ 0x7F then utf8IsValid rest
    else if 0xC2 ≤ b1 && b1 ≤ 0xDF then
      match rest with
      | b2 :: rest2 => isUtf8Cont b2 && utf8IsValid rest2
      | [] => false
    else if 0xE0 ≤ b1 && b1 ≤ 0xEF then
      match rest with
      | b2 :: b3 :: rest3 => utf8SndOk b1 b2 && isUtf8Cont b3 && utf8IsValid rest3
      | _ => false
    else if 0xF0 ≤ b1 && b1 ≤ 0xF4 then
      match rest with
      | b2 :: b3 :: b4 :: rest4 =>
        utf8SndOk b1 b2 && isUtf8Cont b3 && isUtf8Cont b4 && utf8IsValid rest4
      | _ => false
    else false

/-- UTF-8 encoding of U+FFFD REPLACEMENT CHARACTER. -/
def replacementBytes : Bytes := [0xEF, 0xBF, 0xBD]

/-- Rust `String::from_utf8_lossy` on the byte level: valid UTF-8 sequences are
copied verbatim, each maximal invalid subpart is replaced by U+FFFD (following
the byte-consumption rule of Rust `core::str`: an invalid or truncated sequence
consumes exactly its longest valid prefix). -/
def from_utf8_lossy : Bytes → Bytes
  | [] => []
  | b1 :: rest =>
    if b1 ≤ 0x7F then b1 :: from_utf8_lossy rest
    else if 0xC2 ≤ b1 && b1 ≤ 0xDF then
      match rest with
      | b2 :: rest2 =>
        if isUtf8Cont b2 then b1 :: b2 :: from_utf8_lossy rest2
        else replacementBytes ++ from_utf8_lossy (b2 :: rest2)
      | [] => replacementBytes
    else if 0xE0 ≤ b1 && b1 ≤ 0xEF then
      match rest with
      | b2 :: rest2 =>
        if utf8SndOk b1 b2 then
          match rest2 with
          | b3 :: rest3 =>
            if isUtf8Cont b3 then b1 :: b2 :: b3 :: from_utf8_lossy rest3
            else replacementBytes ++ from_utf8_lossy (b3 :: rest3)
          | [] => replacementBytes
        else replacementBytes ++ from_utf8_lossy (b2 :: rest2)
      | [] => replacementBytes
    else if 0xF0 ≤ b1 && b1 ≤ 0xF4 then
      match rest with
      | b2 :: rest2 =>
        if utf8SndOk b1 b2 then
          match rest2 with
          | b3 :: rest3 =>
            if isUtf8Cont b3 then
              match rest3 with
              | b4 :: rest4 =>
                if isUtf8Cont b4 then b1 :: b2 :: b3 :: b4 :: from_utf8_lossy rest4
                else replacementBytes ++ from_utf8_lossy (b4 :: rest4)
              | [] => replacementBytes
            else replacementBytes ++ from_utf8_lossy (b3 :: rest3)
          | [] => replacementBytes
        else replacementBytes ++ from_utf8_lossy (b2 :: rest2)
      | [] => replacementBytes
    else replacementBytes ++ from_utf8_lossy rest

/-- Value of a byte in the standard base64 alphabet (`A-Za-z0-9+/`), `none` for
anything else (including `=`). -/
def b64Val (b : Nat) : Option Nat :=
  if 65 ≤ b ∧ b ≤ 90 then some (b - 65)
  else if 97 ≤ b ∧ b ≤ 122 then some (b - 97 + 26)
  else if 48 ≤ b ∧ b ≤ 57 then some (b - 48 + 52)
  else if b = 43 then some 62
  else if b = 47 then some 63
  else none

/-- Strict decoding of the `base64` crate's `STANDARD` engine: canonical `=`
padding required, trailing bits must be zero, input length a multiple of four.
Processes the input quad by quad; `none` models `base64::DecodeError`. -/
def b64DecodeBytes : Bytes → Option Bytes
  | [] => some []
  | c1 :: c2 :: c3 :: c4 :: rest =>
    match b64Val c1, b64Val c2 with
    | some a, some b =>
      if c3 = 61 then
        -- "xx==": one output byte; canonical only at the very end,
        -- with the low four bits of the second sextet zero
        if c4 = 61 ∧ rest = [] ∧ b % 16 = 0 then some [a * 4 + b / 16]
        else none
      else
        match b64Val c3 with
        | some c =>
          if c4 = 61 then
            -- "xxx=": two output bytes; canonical only at the very end,
            -- with the low two bits of the third sextet zero
            if rest = [] ∧ c % 4 = 0 then some [a * 4 + b / 16, b % 16 * 16 + c / 4]
            else none
          else
            match b64Val c4 with
            | some d =>
              match b64DecodeBytes rest with
              | some tail =>
                some ((a * 4 + b / 16) :: (b % 16 * 16 + c / 4) :: (c % 4 * 64 + d) :: tail)
              | none => none
            | none => none
        | none => none
    | _, _ => none
  | _ => none

/-- The `base64` crate function `decode` (crates/base64):
`STANDARD.decode(data.as_bytes())?` then `String::from_utf8(decoded).unwrap()`.
`none` models the `unwrap` panic on non-UTF-8 decoded bytes; `some (.error ())`
models the propagated `DecodeError`. -/
def decode (data : Bytes) : Option (Except Unit Bytes) :=
  match b64DecodeBytes data with
  | none => some (.error ())
  | some decoded =>
    if utf8IsValid decoded then some (.ok decoded) else none

/-- Rust `str::split` with a one-byte separator: splits on the byte `d`,
keeping empty fragments (so a leading separator yields a leading `[]`). -/
def splitByte (d : Nat) : Bytes → List Bytes
  | [] => [[]]
  | b :: rest =>
    if b = d then [] :: splitByte d rest
    else
      match splitByte d rest with
      | grp :: grps => (b :: grp) :: grps
      | [] => [[b]]

/-- Strip one trailing `\r` byte, as Rust `str::lines` does per line. -/
def stripTrailingCR (bs : Bytes) : Bytes :=
  if bs.getLast? = some 13 then bs.dropLast else bs

/-- Rust `str::lines`: split on `\n`, drop a final empty fragment produced by
a trailing `\n`, and strip one trailing `\r` from each `\n`-terminated line.
A final line not terminated by `\n` keeps a bare trailing `\r` (as in the
`str::lines` documentation example, where `"baz\r"` stays `"baz\r"`). -/
def rustLines (bs : Bytes) : List Bytes :=
  if bs = [] then []
  else
    let parts := splitByte 10 bs
    match parts.getLast? with
    | some [] => parts.dropLast.map stripTrailingCR
    | some last => parts.dropLast.map stripTrailingCR ++ [last]
    | none => []

/-- TLS-level errors (crates/smart_stream `error::TlsError`); the payload of a
native TLS failure is abstracted to a code. -/
inductive TlsError where
  | NativeTls (e : Nat)
  | StreamAlreadyEncrypted
deriving DecidableEq, Repr

/-- `SmartStreamError` (crates/smart_stream `error.rs`); payloads of foreign
error types are abstracted to codes.  `IoError` models the Rust variant `Io`. -/
inductive SmartStreamError where
  | IoError (e : Nat)
  | Tls (e : TlsError)
  | AddrParse (e : Nat)
  | Timeout (e : Nat)
  | CharsetConversion (e : Nat)
  | ClosedConnection (msg : Bytes)
  | RuntimeError (msg : Bytes)
deriving DecidableEq, Repr

/-- The inner variant of a `StreamIo` value: plaintext or TLS-wrapped stream
(payloads abstracted away). -/
inductive StreamInner where
  | Plain
  | Encrypted
deriving DecidableEq, Repr

/-- `AsyncStream` (crates/smart_stream): `m_stream` is the `Option<StreamIo>`
field; `socket_open` abstracts the outcome of the `peek` probe used by
`is_open` (whether the underlying socket is still usable). -/
structure AsyncStream where
  m_stream : Option StreamInner
  socket_open : Bool
deriving DecidableEq, Repr

/-- `AsyncStream::is_open`: `false` when `m_stream` is `None`, otherwise the
socket probe result. -/
def is_open (s : AsyncStream) : Bool :=
  s.m_stream.isSome && s.socket_open

/-- `AsyncStream::close`: shut down the socket and drop the inner stream. -/
def close (s : AsyncStream) : AsyncStream :=
  { s with m_stream := none, socket_open := false }

/-- `AsyncStream::accept_tls`.  `handshake` abstracts the result of
`acceptor.accept(stream).await`.  Note the source `take`s `m_stream` before
matching, so every early-error return leaves `m_stream` empty. -/
def accept_tls (handshake : Except Nat Unit) (s : AsyncStream) :
    AsyncStream × Except SmartStreamError Unit :=
  if is_open s = false then
    (s, .error (.ClosedConnection (strBytes "Error on accept_tls occured")))
  else
    match s.m_stream with
    | none =>
      ({ s with m_stream := none },
       .error (.RuntimeError (strBytes "Error taking stream from option")))
    | some .Plain =>
      match handshake with
      | .ok _ => ({ s with m_stream := some .Encrypted }, .ok ())
      | .error e => ({ s with m_stream := none }, .error (.Tls (.NativeTls e)))
    | some .Encrypted =>
      ({ s with m_stream := none }, .error (.Tls .StreamAlreadyEncrypted))

/-- `AsyncStream::connect_tls`.  `peerAddr` abstracts `peer_addr()`,
`handshake` abstracts `connector.connect(..).await`. -/
def connect_tls (peerAddr : Except Nat Unit) (handshake : Except Nat Unit)
    (s : AsyncStream) : AsyncStream × Except SmartStreamError Unit :=
  if is_open s = false then
    (s, .error (.ClosedConnection (strBytes "Error on connect_tls occured")))
  else
    match s.m_stream with
    | none =>
      ({ s with m_stream := none },
       .error (.RuntimeError (strBytes "Error taking stream from option")))
    | some .Plain =>
      match peerAddr with
      | .error e => ({ s with m_stream := none }, .error (.IoError e))
      | .ok _ =>
        match handshake with
        | .ok _ => ({ s with m_stream := some .Encrypted }, .ok ())
        | .error e => ({ s with m_stream := none }, .error (.Tls (.NativeTls e)))
    | some .Encrypted =>
      ({ s with m_stream := none }, .error (.Tls .StreamAlreadyEncrypted))

/-- One iteration's observation inside `read_until_crlf`: the stream was
found closed (`is_open` false or `m_stream` `None`), the underlying read
failed with an I/O error, or it produced a chunk of bytes (possibly empty). -/
inductive ReadEvent where
  | closed
  | ioErr (e : Nat)
  | chunk (bs : Bytes)
deriving DecidableEq, Repr

/-- `AsyncStream::read_until_crlf` over an explicit trace of per-iteration
observations.  `none` means the modelled trace ended while the loop was still
reading.  Each chunk is appended to the accumulator after `from_utf8_lossy`
conversion; the loop stops after a chunk whose raw bytes end in CRLF, after an
empty chunk, or when the stream is closed, returning the accumulator. -/
def read_until_crlf : List ReadEvent → Bytes → Option (Except SmartStreamError Bytes)
  | [], _ => none
  | ev :: evs, response =>
    match ev with
    | .closed => some (.ok response)
    | .ioErr e => some (.error (.IoError e))
    | .chunk [] => some (.ok response)
    | .chunk bs =>
      if (strBytes "\r\n").isSuffixOf bs then some (.ok (response ++ from_utf8_lossy bs))
      else read_until_crlf evs (response ++ from_utf8_lossy bs)

/-- `AsyncStream::read`: fails with `ClosedConnection` when the stream is not
open, otherwise delegates to `read_until_crlf`. -/
def read (s : AsyncStream) (evs : List ReadEvent) :
    Option (Except SmartStreamError Bytes) :=
  if is_open s then read_until_crlf evs []
  else some (.error (.ClosedConnection (strBytes "Error on read occured")))

/-- `MailError` (crates/mail_database); foreign payloads abstracted to codes. -/
inductive MailError where
  | ConnectionError (e : Nat)
  | NoConnection
  | QueryError (e : Nat)
  | UserNotFound
  | UserAlreadyExist
  | UserAuthError
  | UserNotLoggedIn
  | PasswordHashError
  | PasswordVerifyError
deriving DecidableEq, Repr

/-- `ClientSessionError` (crates/client_session `error.rs`). -/
inductive ClientSessionError where
  | ClosedConnection
  | SmartStream (e : SmartStreamError)
  | DataBase (e : MailError)
deriving DecidableEq, Repr

/-- `RequestType` (crates/request_parser), arguments as byte strings. -/
inductive RequestType where
  | EHLO (domain : Bytes)
  | STARTTLS
  | AUTH_PLAIN (cred : Bytes)
  | REGISTER (cred : Bytes)
  | MAIL_FROM (addr : Bytes)
  | RCPT_TO (addr : Bytes)
  | DATA
  | QUIT
  | HELP
  | NOOP
  | RSET
deriving DecidableEq, Repr

/-- `ClientState` (crates/client_session). -/
inductive ClientState where
  | Connected
  | Ehlo
  | StartTLS
  | Auth
  | MailFrom
  | RcptTo
  | Data
  | Quit
deriving DecidableEq, Repr

/-- `SessionData` (crates/client_session). -/
structure SessionData where
  logged_user : Bytes
  mail_from : Bytes
  rcpt_to : List Bytes
  data : Bytes
deriving DecidableEq, Repr

/-- `SessionData::default()`: empty strings and empty recipient list. -/
def defaultSessionData : SessionData :=
  { logged_user := [], mail_from := [], rcpt_to := [], data := [] }

/-- The state of a `ClientSession` that the handlers read and write:
`connection` is whether `self.connection` is `Some` (the stream itself is
driven through explicit read traces and reply accumulation). -/
structure ClientSession where
  current_state : ClientState
  connection : Bool
  connection_data : SessionData
deriving DecidableEq, Repr

/-- The database handle as the session observes it: `login` is
`db_connection.login(user, pass).is_ok()`, `insert_multiple_emails` the
store insert result as a function of recipients, subject and body. -/
structure MailDb where
  login : Bytes → Bytes → Bool
  insert_multiple_emails : List Bytes → Bytes → Bytes → Except MailError Unit

/-- Outcome of a handler call: normal return with the updated session, an
error propagated to the caller via `?`, a panic (`unwrap`/index out of
bounds/`unreachable!`), or exhaustion of the modelled read trace while the
code is still looping on reads. -/
inductive Outcome where
  | ok (sess : ClientSession)
  | err (e : ClientSessionError)
  | panics
  | pending
deriving DecidableEq, Repr

/-- A handler's effect: the replies written to the stream, in order, and the
outcome. -/
abbrev HandlerResult := List Bytes × Outcome

def reply250 : Bytes := strBytes "250 OK\r\n"
def reply235 : Bytes := strBytes "235 OK\r\n"
def reply221 : Bytes := strBytes "221 OK\r\n"
def reply214 : Bytes := strBytes "214 OK\r\n"
def reply500 : Bytes := strBytes "500 Error\r\n"
def reply220Tls : Bytes := strBytes "220 Ready to start TLS\r\n"
def reply354 : Bytes := strBytes "354 End data with <CR><LF>.<CR><LF>\r\n"
def reply500UserNotFound : Bytes := strBytes "500 Error user not found\r\n"
def reply500DecodeCred : Bytes := strBytes "500 Error could not decode credentials\r\n"

/-- The DATA size bound from `read_data_until_dot`. -/
def MAX_SIZE : Nat := 1024 * 1024 * 2

/-- The end-of-data marker `\r\n.\r\n`. -/
def dotCRLF : Bytes := strBytes "\r\n.\r\n"

/-- Error message of an oversized DATA body. -/
def msgDataTooBig : Bytes := strBytes "Data size is too big"

/-- `ClientSession::read_data_until_dot` over a trace of `stream.read()`
results (`reads`), with accumulator `data`.  Mirrors the source loop: an `Ok`
line ending in `\r\n.\r\n` is appended without its last five bytes and the
loop breaks immediately (no size check on this path); any other `Ok` line is
appended; a read error is ignored; after appending (or ignoring an error) the
accumulated size is checked against `MAX_SIZE`.  `none` means the trace ended
while the loop was still reading. -/
def read_data_until_dot : List (Except SmartStreamError Bytes) → Bytes →
    Option (Except Bytes Bytes)
  | [], _ => none
  | r :: rs, data =>
    match r with
    | .ok line =>
      if dotCRLF.isSuffixOf line then
        some (.ok (data ++ line.take (line.length - 5)))
      else if (data ++ line).length > MAX_SIZE then some (.error msgDataTooBig)
      else read_data_until_dot rs (data ++ line)
    | .error _ =>
      if data.length > MAX_SIZE then some (.error msgDataTooBig)
      else read_data_until_dot rs data

/-- The subject expression of `handle_following_rcpt_to`: first line of the
body starting with `"Subject: "`, defaulted to `"Subject: No Subject"`, with
the first nine bytes sliced off. -/
def subjectOf (data : Bytes) : Bytes :=
  (((rustLines data).find? (fun x => (strBytes "Subject: ").isPrefixOf x)).getD
    (strBytes "Subject: No Subject")).drop 9

/-- `ClientSession::handle_following_connected`: any request reaching it gets
`500 Error`. -/
def handle_following_connected (sess : ClientSession) (_req : RequestType) :
    HandlerResult :=
  if sess.connection = false then ([], .err .ClosedConnection)
  else ([reply500], .ok sess)

/-- `ClientSession::handle_following_ehlo`.  `tlsRes` abstracts the result of
`connection.accept_tls(&self.tls_acceptor)`. -/
def handle_following_ehlo (tlsRes : Except SmartStreamError Unit)
    (sess : ClientSession) (req : RequestType) : HandlerResult :=
  if sess.connection = false then ([], .err .ClosedConnection)
  else
    match req with
    | .STARTTLS =>
      let sess2 := { sess with current_state := .StartTLS }
      match tlsRes with
      | .ok _ => ([reply220Tls], .ok sess2)
      | .error e => ([reply220Tls], .err (.SmartStream e))
    | _ => ([reply500], .ok sess)

/-- `ClientSession::handle_following_starttls`: AUTH PLAIN decodes the base64
credentials, splits on NUL, indexes fields 1 and 2 (panicking when absent),
consults `login`, and — in the source — sets `current_state = Auth`
unconditionally after the decode match, on the failure paths as well. -/
def handle_following_starttls (db : MailDb) (sess : ClientSession)
    (req : RequestType) : HandlerResult :=
  if sess.connection = false then ([], .err .ClosedConnection)
  else
    match req with
    | .AUTH_PLAIN cred_string =>
      match decode cred_string with
      | none => ([], .panics)
      | some (.ok credBytes) =>
        let cred := splitByte 0 credBytes
        match cred.get? 1, cred.get? 2 with
        | some user, some pass =>
          if db.login user pass then
            let sess2 := { sess with
              current_state := .Auth,
              connection_data := { sess.connection_data with logged_user := user } }
            ([reply235], .ok { sess2 with current_state := .Auth })
          else
            ([reply500UserNotFound], .ok { sess with current_state := .Auth })
        | _, _ => ([], .panics)
      | some (.error _) =>
        ([reply500DecodeCred], .ok { sess with current_state := .Auth })
    | .REGISTER _ => ([reply235], .ok { sess with current_state := .Auth })
    | _ => ([reply500], .ok sess)

/-- `ClientSession::handle_following_auth`. -/
def handle_following_auth (sess : ClientSession) (req : RequestType) :
    HandlerResult :=
  if sess.connection = false then ([], .err .ClosedConnection)
  else
    match req with
    | .MAIL_FROM _ => ([reply250], .ok { sess with current_state := .MailFrom })
    | _ => ([reply500], .ok sess)

/-- `ClientSession::handle_following_mail_from`. -/
def handle_following_mail_from (sess : ClientSession) (req : RequestType) :
    HandlerResult :=
  if sess.connection = false then ([], .err .ClosedConnection)
  else
    match req with
    | .RCPT_TO rcpt =>
      ([reply250], .ok { sess with
        current_state := .RcptTo,
        connection_data := { sess.connection_data with
          rcpt_to := sess.connection_data.rcpt_to ++ [rcpt] } })
    | _ => ([reply500], .ok sess)

/-- `ClientSession::handle_following_rcpt_to`.  On DATA: write the 354 prompt,
collect the body via `read_data_until_dot` over the trace `reads`; on success
record the body, enter state `Data`, write `250 OK`, then call the store —
whose error propagates out via `?`; on collection failure write
`"500 Error\r\n"` concatenated with the error message and stay unchanged. -/
def handle_following_rcpt_to (db : MailDb)
    (reads : List (Except SmartStreamError Bytes)) (sess : ClientSession)
    (req : RequestType) : HandlerResult :=
  if sess.connection = false then ([], .err .ClosedConnection)
  else
    match req with
    | .RCPT_TO rcpt =>
      ([reply250], .ok { sess with
        current_state := .RcptTo,
        connection_data := { sess.connection_data with
          rcpt_to := sess.connection_data.rcpt_to ++ [rcpt] } })
    | .DATA =>
      match read_data_until_dot reads [] with
      | none => ([reply354], .pending)
      | some (.ok body) =>
        let sess2 := { sess with
          current_state := .Data,
          connection_data := { sess.connection_data with data := body } }
        match db.insert_multiple_emails sess2.connection_data.rcpt_to
            (subjectOf sess2.connection_data.data) sess2.connection_data.data with
        | .ok _ => ([reply354, reply250], .ok sess2)
        | .error e => ([reply354, reply250], .err (.DataBase e))
      | some (.error errMsg) =>
        ([reply354, strBytes "500 Error\r\n" ++ errMsg], .ok sess)
    | _ => ([reply500], .ok sess)

/-- `ClientSession::handle_following_data`: MAIL FROM resets the session data
and pushes the sender address onto `rcpt_to` (as the source does). -/
def handle_following_data (sess : ClientSession) (req : RequestType) :
    HandlerResult :=
  if sess.connection = false then ([], .err .ClosedConnection)
  else
    match req with
    | .MAIL_FROM mail_from =>
      ([reply250], .ok { sess with
        current_state := .MailFrom,
        connection_data := { defaultSessionData with rcpt_to := [mail_from] } })
    | _ => ([reply500], .ok sess)

/-- `ClientSession::handle_following_quit`: `unreachable!`, a panic. -/
def handle_following_quit (_sess : ClientSession) (_req : RequestType) :
    HandlerResult :=
  ([], .panics)

/-- `ClientSession::handle_if_loose`: commands accepted in any state; the
boolean tells the caller whether the request was consumed. -/
def handle_if_loose (sess : ClientSession) (req : RequestType) :
    List Bytes × Except ClientSessionError (ClientSession × Bool) :=
  if sess.connection = false then ([], .error .ClosedConnection)
  else
    match req with
    | .EHLO _ =>
      ([reply250], .ok ({ sess with
        current_state := .Ehlo, connection_data := defaultSessionData }, true))
    | .QUIT =>
      ([reply221], .ok ({ sess with
        current_state := .Quit, connection := false }, true))
    | .HELP => ([reply214], .ok (sess, true))
    | .NOOP => ([reply250], .ok (sess, true))
    | .RSET =>
      ([reply250], .ok ({ sess with
        current_state := .Connected, connection_data := defaultSessionData }, true))
    | _ => ([], .ok (sess, false))

/-- `ClientSession::handle_new_request`: read one line (`readRes` is the
`connection.read()` result, which propagates errors via `?`), parse it
(`parseRes` abstracts `RequestType::parse`), answer parse errors with
`500 Error <msg>`, try the loose commands, then dispatch on the current
state.  `tlsRes` and `bodyReads` feed the EHLO and RCPT TO handlers. -/
def handle_new_request (db : MailDb) (tlsRes : Except SmartStreamError Unit)
    (bodyReads : List (Except SmartStreamError Bytes))
    (parseRes : Bytes → Except Bytes RequestType)
    (readRes : Except SmartStreamError Bytes) (sess : ClientSession) :
    HandlerResult :=
  if sess.connection = false then ([], .err .ClosedConnection)
  else
    match readRes with
    | .error e => ([], .err (.SmartStream e))
    | .ok raw =>
      match parseRes raw with
      | .error errMsg =>
        ([strBytes "500 Error " ++ errMsg ++ strBytes "\r\n"], .ok sess)
      | .ok req =>
        match handle_if_loose sess req with
        | (w, .error e) => (w, .err e)
        | (w, .ok (sess2, true)) => (w, .ok sess2)
        | (w, .ok (sess2, false)) =>
          let (w2, out) :=
            match sess2.current_state with
            | .Connected => handle_following_connected sess2 req
            | .Ehlo => handle_following_ehlo tlsRes sess2 req
            | .StartTLS => handle_following_starttls db sess2 req
            | .Auth => handle_following_auth sess2 req
            | .MailFrom => handle_following_mail_from sess2 req
            | .RcptTo => handle_following_rcpt_to db bodyReads sess2 req
            | .Data => handle_following_data sess2 req
            | .Quit => handle_following_quit sess2 req
          (w ++ w2, out)

/-- Poll result of a task (`futures::task::Poll` specialised to `()`). -/
inductive Poll where
  | Ready
  | Pending
deriving DecidableEq, Repr

/-- A task on the shared queue: `id` identifies it, `polls m` is the result of
its `m`-th poll, `k` counts the polls performed so far. -/
structure Task where
  id : Nat
  polls : Nat → Poll
  k : Nat

/-- Polling a task once: observe the next scripted result and advance. -/
def pollTask (t : Task) : Poll × Task :=
  (t.polls t.k, { t with k := t.k + 1 })

/-- The state an `Executor::run` loop acts on: the shared FIFO queue (front =
next pop) and the termination flag. -/
structure ExecutorState where
  global_queue : List Task
  termination_flag : Bool

/-- One iteration of the body of the `loop` in `Executor::run`: when the
termination flag is clear, pop a task from the queue front, poll it once, drop
it on `Ready` and push it back on the tail on `Pending`; when the flag is set
(or the queue is empty) do nothing.  The loop itself has no exit. -/
def runIter (st : ExecutorState) : ExecutorState :=
  if st.termination_flag = false then
    match st.global_queue with
    | [] => st
    | t :: ts =>
      match pollTask t with
      | (.Ready, _) => { st with global_queue := ts }
      | (.Pending, t2) => { st with global_queue := ts ++ [t2] }
  else st

/-- `Executor::run` with fuel: `some` would mean the loop exited and `run`
returned within `fuel` iterations, `none` that it is still looping.  The
source loop contains no `break` or `return`, so no iteration count ever
produces `some`. -/
def run : Nat → ExecutorState → Option ExecutorState
  | 0, _ => none
  | fuel + 1, st => run fuel (runIter st)

/-- `Executor::stop`: set the termination flag. -/
def stop (st : ExecutorState) : ExecutorState :=
  { st with termination_flag := true }

/-! Concrete fixtures used by the theorems below. -/

/-- A store whose `login` always fails. -/
def dbNo : MailDb :=
  { login := fun _ _ => false, insert_multiple_emails := fun _ _ _ => .ok () }

/-- A store whose `login` always succeeds and whose insert succeeds. -/
def dbYes : MailDb :=
  { login := fun _ _ => true, insert_multiple_emails := fun _ _ _ => .ok () }

/-- A store whose insert fails with a query error. -/
def dbInsFail : MailDb :=
  { login := fun _ _ => true, insert_multiple_emails := fun _ _ _ => .error (.QueryError 0) }

/-- A live session sitting in state `StartTLS`. -/
def sessStart : ClientSession :=
  { current_state := .StartTLS, connection := true, connection_data := defaultSessionData }

/-- A live session sitting in state `RcptTo` with one recipient recorded. -/
def sessRcpt : ClientSession :=
  { current_state := .RcptTo, connection := true,
    connection_data := { defaultSessionData with rcpt_to := [strBytes "b@x"] } }

/-- A stream whose inner variant is `Encrypted` but whose socket has died. -/
def sEncClosed : AsyncStream := { m_stream := some .Encrypted, socket_open := false }

/-- A stream whose inner variant is `Encrypted` with a live socket. -/
def sEncOpen : AsyncStream := { m_stream := some .Encrypted, socket_open := true }

/-- A task that reports `Pending` at every poll. -/
def tW : Task := { id := 0, polls := fun _ => .Pending, k := 0 }

/-- An executor state holding exactly the always-pending task, flag clear. -/
def stW : ExecutorState := { global_queue := [tW], termination_flag := false }

/-- A store whose insert fails because the connection is absent. -/
def dbNoConn : MailDb :=
  { login := fun _ _ => false, insert_multiple_emails := fun _ _ _ => .error .NoConnection }

/-- Step lemma: a read ending in the `\r\n.\r\n` marker finishes collection at
once, appending the read minus its last five bytes — with no size check. -/
theorem read_data_step_terminator (rs : List (Except SmartStreamError Bytes))
    (line data : Bytes) (h : dotCRLF.isSuffixOf line = true) :
    read_data_until_dot (.ok line :: rs) data =
      some (.ok (data ++ line.take (line.length - 5))) := by
  simp only [read_data_until_dot, h, if_true]

/-- Step lemma: a non-terminating read within the size bound is appended and
collection continues. -/
theorem read_data_step_append (rs : List (Except SmartStreamError Bytes))
    (line data : Bytes) (h : dotCRLF.isSuffixOf line = false)
    (h2 : ¬ (data ++ line).length > MAX_SIZE) :
    read_data_until_dot (.ok line :: rs) data =
      read_data_until_dot rs (data ++ line) := by
  simp only [read_data_until_dot, h, Bool.false_eq_true, if_false]
  rw [if_neg h2]

/-- Step lemma: a non-terminating read pushing the accumulation past the size
bound fails collection with "Data size is too big". -/
theorem read_data_step_overflow (rs : List (Except SmartStreamError Bytes))
    (line data : Bytes) (h : dotCRLF.isSuffixOf line = false)
    (h2 : (data ++ line).length > MAX_SIZE) :
    read_data_until_dot (.ok line :: rs) data = some (.error msgDataTooBig) := by
  simp only [read_data_until_dot, h, Bool.false_eq_true, if_false]
  rw [if_pos h2]

/-- The `\r\n.\r\n` marker is not a suffix of a replicated run of the byte
`b` when `b` is not a newline. -/
theorem dot_not_suffix_replicate (n : Nat) (b : Nat) (hb : b ≠ 10) :
    dotCRLF.isSuffixOf (List.replicate n b) = false := by
  cases hx : dotCRLF.isSuffixOf (List.replicate n b)
  · rfl
  · have h10 : (10 : Nat) ∈ List.replicate n b :=
      (List.isSuffixOf_iff_suffix.mp hx).subset (by decide)
    exact absurd (List.eq_of_mem_replicate h10).symm hb

/-- Collecting a single read that carries `n` bytes of payload followed by the
`\r\n.\r\n` marker succeeds with exactly the payload, whatever `n`: the size
check is skipped on the terminating read. -/
theorem read_one_line_replicate (n : Nat) :
    read_data_until_dot [.ok (List.replicate n 97 ++ dotCRLF)] [] =
      some (.ok (List.replicate n 97)) := by
  have hsuf : dotCRLF.isSuffixOf (List.replicate n 97 ++ dotCRLF) = true := by
    simp only [List.isSuffixOf_iff_suffix]
    exact List.suffix_append _ _
  have h5 : dotCRLF.length = 5 := rfl
  have hlen : (List.replicate n 97 ++ dotCRLF).length - 5 = n := by
    simp [List.length_append, h5]
  simp only [read_data_until_dot, hsuf, if_true, hlen, List.nil_append]
  rw [List.take_left' (by simp : (List.replicate n 97).length = n)]

/-- `run` never returns, whatever the state: the loop body has no exit. -/
theorem run_eq_none : ∀ (fuel : Nat) (st : ExecutorState), run fuel st = none := by
  intro fuel
  induction fuel with
  | zero => intro st; rfl
  | succ n ih => intro st; exact ih (runIter st)

/-- C1.  The spec claims a failed AUTH PLAIN inside `StartTLS` leaves the
session in `StartTLS`.  The code sets `current_state = Auth` unconditionally
after the credential match, so both the login-failure path (valid base64 of
`\0user\0pass`, store rejects) and the decode-failure path write their error
reply and nevertheless move the session to `Auth`. -/
theorem c1_auth_failure_still_enters_auth :
    handle_following_starttls dbNo sessStart (.AUTH_PLAIN (strBytes "AHVzZXIAcGFzcw==")) =
      ([reply500UserNotFound], .ok { sessStart with current_state := .Auth }) ∧
    handle_following_starttls dbNo sessStart (.AUTH_PLAIN (strBytes "!!")) =
      ([reply500DecodeCred], .ok { sessStart with current_state := .Auth }) := by
  exact ⟨by decide, by decide⟩

/-- C2.  `AUTH PLAIN YWJj` carries valid base64 (decoding to `abc`, which has
no NUL separators), and the `StartTLS` handler panics on the out-of-bounds
index `cred[1]` instead of producing a reply or an error. -/
theorem c2_auth_plain_malformed_panics :
    b64DecodeBytes (strBytes "YWJj") = some (strBytes "abc") ∧
    splitByte 0 (strBytes "abc") = [strBytes "abc"] ∧
    handle_following_starttls dbYes sessStart (.AUTH_PLAIN (strBytes "YWJj")) =
      ([], .panics) := by
  exact ⟨by decide, by decide, by decide⟩

/-- C3.  The claim says that once `stop()` has set the termination flag the
`run()` loop exits.  In the source the `loop` has no `break` or `return`: with
the flag set each iteration merely skips the queue pop, so `run` never returns
for any iteration budget. -/
theorem c3_run_never_returns_after_stop :
    ∀ (fuel : Nat) (st : ExecutorState), run fuel (stop st) = none :=
  fun fuel st => run_eq_none fuel (stop st)

/-- A task whose every poll is `Pending` stays in the queue across one
scheduler iteration. -/
theorem pending_task_preserved (st : ExecutorState) (i : Nat)
    (h : ∃ u ∈ st.global_queue, u.id = i ∧ ∀ m, u.polls m = Poll.Pending) :
    ∃ u ∈ (runIter st).global_queue, u.id = i ∧ ∀ m, u.polls m = Poll.Pending := by
  obtain ⟨u, hu, hid, hp⟩ := h
  unfold runIter
  by_cases hf : st.termination_flag = false
  · rw [if_pos hf]
    cases hq : st.global_queue with
    | nil => rw [hq] at hu; exact absurd hu (List.not_mem_nil u)
    | cons t ts =>
      rw [hq] at hu
      rcases List.mem_cons.mp hu with rfl | hmem
      · simp only [pollTask, hp u.k]
        exact ⟨{ u with k := u.k + 1 }, by simp, hid, hp⟩
      · cases hp2 : t.polls t.k
        · simp only [pollTask, hp2]
          exact ⟨u, hmem, hid, hp⟩
        · simp only [pollTask, hp2]
          exact ⟨u, List.mem_append_left _ hmem, hid, hp⟩
  · rw [if_neg hf]
    exact ⟨u, hu, hid, hp⟩

/-- Iterated version of `pending_task_preserved`. -/
theorem pending_task_preserved_iter :
    ∀ (n : Nat) (st : ExecutorState) (i : Nat),
      (∃ u ∈ st.global_queue, u.id = i ∧ ∀ m, u.polls m = Poll.Pending) →
      ∃ u ∈ (runIter^[n] st).global_queue, u.id = i ∧ ∀ m, u.polls m = Poll.Pending := by
  intro n
  induction n with
  | zero => intro st i h; exact h
  | succ k ih =>
    intro st i h
    rw [Function.iterate_succ_apply]
    exact ih _ _ (pending_task_preserved st i h)

/-- C10.  With the termination flag clear, popping the queue head and polling
it yields: on `Pending`, re-enqueue at the tail; on `Ready`, drop.  Moreover a
task that always reports `Pending` is never discarded, over any number of
scheduler iterations. -/
theorem c10_pending_requeued_ready_dropped :
    ∀ (st : ExecutorState) (t : Task) (ts : List Task),
      st.termination_flag = false → st.global_queue = t :: ts →
      (((pollTask t).1 = Poll.Pending →
          (runIter st).global_queue = ts ++ [(pollTask t).2]) ∧
       ((pollTask t).1 = Poll.Ready → (runIter st).global_queue = ts) ∧
       (∀ (n i : Nat),
          (∃ u ∈ st.global_queue, u.id = i ∧ ∀ m, u.polls m = Poll.Pending) →
          ∃ u ∈ (runIter^[n] st).global_queue, u.id = i ∧
            ∀ m, u.polls m = Poll.Pending)) := by
  intro st t ts hf hq
  refine ⟨?_, ?_, ?_⟩
  · intro hp
    have hpt : t.polls t.k = Poll.Pending := by simpa [pollTask] using hp
    unfold runIter
    rw [if_pos hf, hq]
    simp [pollTask, hpt]
  · intro hp
    have hpt : t.polls t.k = Poll.Ready := by simpa [pollTask] using hp
    unfold runIter
    rw [if_pos hf, hq]
    simp [pollTask, hpt]
  · intro n i h
    exact pending_task_preserved_iter n st i h

/-- Counterexample to C4: with a failing store, the DATA exchange writes the
`354` prompt and then `250 OK` — no `500 Error` line anywhere — and the insert
error propagates out of the handler as a `DataBase` error, ending the
session. -/
theorem c4_counterexample :
    handle_following_rcpt_to dbInsFail [.ok (strBytes "hi\r\n.\r\n")] sessRcpt .DATA =
      ([reply354, reply250], .err (.DataBase (.QueryError 0))) ∧
    (strBytes "500").isPrefixOf reply354 = false ∧
    (strBytes "500").isPrefixOf reply250 = false := by
  exact ⟨by decide, by decide, by decide⟩

/-- C4 (amended).  When body collection succeeds, the session records the
body, enters `Data` and writes `250 OK` before the store is consulted; a
failing `insert_multiple_emails` then propagates out of the handler as a
`DataBase` error instead of producing a `500 Error` reply. -/
theorem c4_amended_insert_error_propagates :
    ∀ (db : MailDb) (reads : List (Except SmartStreamError Bytes))
      (sess : ClientSession) (body : Bytes) (e : MailError),
      sess.connection = true →
      read_data_until_dot reads [] = some (.ok body) →
      db.insert_multiple_emails sess.connection_data.rcpt_to (subjectOf body) body =
        .error e →
      handle_following_rcpt_to db reads sess .DATA =
        ([reply354, reply250], .err (.DataBase e)) := by
  intro db reads sess body e hconn hread hins
  unfold handle_following_rcpt_to
  rw [hconn]
  simp only [Bool.true_eq_false, if_false, hread]
  simp [hins]

/-- Witness for C4 (amended) at a concrete failing store. -/
theorem c4_amended_witness :
    sessRcpt.connection = true ∧
    handle_following_rcpt_to dbNoConn [.ok (strBytes "yo\r\n.\r\n")] sessRcpt .DATA =
      ([reply354, reply250], .err (.DataBase .NoConnection)) := by
  refine ⟨rfl, ?_⟩
  exact c4_amended_insert_error_propagates dbNoConn [.ok (strBytes "yo\r\n.\r\n")]
    sessRcpt (strBytes "yo") .NoConnection rfl (by decide) rfl

/-- Counterexample to C5: a DATA transaction whose terminating read carries
`MAX_SIZE + 1` payload bytes completes successfully with a stored body longer
than 2 MiB — the size check is skipped on the terminating read. -/
theorem c5_counterexample :
    read_data_until_dot [.ok (List.replicate (MAX_SIZE + 1) 97 ++ dotCRLF)] [] =
      some (.ok (List.replicate (MAX_SIZE + 1) 97)) ∧
    MAX_SIZE < (List.replicate (MAX_SIZE + 1) 97 : Bytes).length := by
  refine ⟨read_one_line_replicate (MAX_SIZE + 1), ?_⟩
  simp

/-- C5 (amended).  A successfully collected body splits as the data
accumulated before the terminating read — which is bounded by `MAX_SIZE` —
followed by the terminating read with its last five bytes (its `\r\n.\r\n`
suffix) stripped; hence the body exceeds 2 MiB by at most the length of the
terminating read. -/
theorem c5_amended_body_shape :
    ∀ (reads : List (Except SmartStreamError Bytes)) (data body : Bytes),
      data.length ≤ MAX_SIZE →
      read_data_until_dot reads data = some (.ok body) →
      ∃ pre fin, body = pre ++ fin.take (fin.length - 5) ∧
        pre.length ≤ MAX_SIZE ∧ dotCRLF.isSuffixOf fin = true ∧
        body.length ≤ MAX_SIZE + (fin.length - 5) := by
  intro reads
  induction reads with
  | nil => intro data body _ h; simp [read_data_until_dot] at h
  | cons r rs ih =>
    intro data body hd h
    cases r with
    | ok line =>
      by_cases hs : dotCRLF.isSuffixOf line = true
      · simp only [read_data_until_dot, hs, if_true] at h
        obtain ⟨rfl⟩ : data ++ line.take (line.length - 5) = body := by
          simpa using h
        refine ⟨data, line, rfl, hd, hs, ?_⟩
        have : (line.take (line.length - 5)).length ≤ line.length - 5 := by
          simp [List.length_take]
        calc (data ++ line.take (line.length - 5)).length
            = data.length + (line.take (line.length - 5)).length := by
              simp [List.length_append]
          _ ≤ MAX_SIZE + (line.length - 5) := Nat.add_le_add hd this
      · have hs' : dotCRLF.isSuffixOf line = false := by
          cases hx : dotCRLF.isSuffixOf line
          · rfl
          · exact absurd hx hs
        simp only [read_data_until_dot, hs', Bool.false_eq_true, if_false] at h
        by_cases hlen : (data ++ line).length > MAX_SIZE
        · rw [if_pos hlen] at h
          exact absurd h (by simp)
        · rw [if_neg hlen] at h
          exact ih (data ++ line) body (Nat.le_of_not_lt hlen) h
    | error e =>
      have hlen : ¬ data.length > MAX_SIZE := Nat.not_lt.mpr hd
      simp only [read_data_until_dot, if_neg hlen] at h
      exact ih data body hd h

/-- Witness for C5 (amended) at a one-line body. -/
theorem c5_amended_witness :
    ([] : Bytes).length ≤ MAX_SIZE ∧
    read_data_until_dot [.ok (strBytes "x\r\n.\r\n")] [] = some (.ok (strBytes "x")) ∧
    ∃ pre fin, strBytes "x" = pre ++ fin.take (fin.length - 5) ∧
      pre.length ≤ MAX_SIZE ∧ dotCRLF.isSuffixOf fin = true ∧
      (strBytes "x").length ≤ MAX_SIZE + (fin.length - 5) := by
  refine ⟨by decide, by decide, ?_⟩
  exact c5_amended_body_shape [.ok (strBytes "x\r\n.\r\n")] [] (strBytes "x")
    (by decide) (by decide)

/-- Counterexample to C6: a read error raised during DATA body collection is
silently discarded — the collection keeps reading, completes on the next
terminator and the session continues normally, instead of the error
propagating out and ending the session. -/
theorem c6_counterexample :
    read_data_until_dot [.error (.IoError 7), .ok (strBytes "x\r\n.\r\n")] [] =
      some (.ok (strBytes "x")) ∧
    handle_following_rcpt_to dbYes [.error (.IoError 7), .ok (strBytes "x\r\n.\r\n")]
        sessRcpt .DATA =
      ([reply354, reply250], .ok { sessRcpt with
        current_state := .Data,
        connection_data := { sessRcpt.connection_data with data := strBytes "x" } }) := by
  exact ⟨by decide, by decide⟩

/-- C6 (amended).  A transport error on the command-line read propagates out
of `handle_new_request` as a fatal `SmartStream` error, but a read error
inside DATA body collection is ignored: the collection loop simply retries
with the accumulator unchanged. -/
theorem c6_amended_transport_error_scope :
    (∀ (db : MailDb) (tlsRes : Except SmartStreamError Unit)
       (bodyReads : List (Except SmartStreamError Bytes))
       (parseRes : Bytes → Except Bytes RequestType) (e : SmartStreamError)
       (sess : ClientSession), sess.connection = true →
       handle_new_request db tlsRes bodyReads parseRes (.error e) sess =
         ([], .err (.SmartStream e))) ∧
    (∀ (rs : List (Except SmartStreamError Bytes)) (e : SmartStreamError)
       (data : Bytes), data.length ≤ MAX_SIZE →
       read_data_until_dot (.error e :: rs) data = read_data_until_dot rs data) := by
  constructor
  · intro db tlsRes bodyReads parseRes e sess hconn
    unfold handle_new_request
    rw [hconn]
    simp
  · intro rs e data hd
    simp only [read_data_until_dot]
    rw [if_neg (Nat.not_lt.mpr hd)]

/-- Witness for C6 (amended) at concrete inputs. -/
theorem c6_amended_witness :
    handle_new_request dbYes (.ok ()) [] (fun _ => .error []) (.error (.IoError 3))
      sessStart = ([], .err (.SmartStream (.IoError 3))) ∧
    read_data_until_dot [.error (.IoError 3)] [] = read_data_until_dot [] [] := by
  have h := c6_amended_transport_error_scope
  exact ⟨h.1 dbYes (.ok ()) [] (fun _ => .error []) (.IoError 3) sessStart rfl,
    h.2 [] (.IoError 3) [] (by decide)⟩

/-- Counterexample to C7: the accumulated data exceeds 2 MiB — `MAX_SIZE`
payload bytes from the first read plus one more byte from the terminating
read — yet collection succeeds instead of failing with "Data size is too
big", because the terminating read is exempt from the size check. -/
theorem c7_counterexample :
    read_data_until_dot
        [.ok (List.replicate MAX_SIZE 97), .ok (strBytes "z\r\n.\r\n")] [] =
      some (.ok (List.replicate MAX_SIZE 97 ++ [122])) ∧
    MAX_SIZE < (List.replicate MAX_SIZE 97 ++ [122] : Bytes).length := by
  have hns : dotCRLF.isSuffixOf (List.replicate MAX_SIZE 97) = false :=
    dot_not_suffix_replicate MAX_SIZE 97 (by decide)
  constructor
  · rw [read_data_step_append _ _ _ hns
        (by simp only [List.nil_append, List.length_replicate]; omega),
      List.nil_append, read_data_step_terminator _ _ _ (by decide)]
    have ht : (strBytes "z\r\n.\r\n").take ((strBytes "z\r\n.\r\n").length - 5) =
        [122] := by decide
    rw [ht]
  · rw [List.length_append, List.length_replicate]
    exact Nat.lt_add_of_pos_right (by decide)

/-- C7 (amended).  When a non-terminating read pushes the accumulated data
past `MAX_SIZE`, collection fails with "Data size is too big" and the handler
answers with the `500 Error` reply carrying that message, leaving the session
state unchanged; a payload of exactly `MAX_SIZE` bytes is accepted.  The size
check does not apply to the terminating read. -/
theorem c7_amended_size_check :
    (∀ (rs : List (Except SmartStreamError Bytes)) (line data : Bytes),
       dotCRLF.isSuffixOf line = false → MAX_SIZE < (data ++ line).length →
       read_data_until_dot (.ok line :: rs) data = some (.error msgDataTooBig)) ∧
    (∀ (db : MailDb) (sess : ClientSession)
       (reads : List (Except SmartStreamError Bytes)) (m : Bytes),
       sess.connection = true → read_data_until_dot reads [] = some (.error m) →
       handle_following_rcpt_to db reads sess .DATA =
         ([reply354, strBytes "500 Error\r\n" ++ m], .ok sess)) ∧
    read_data_until_dot [.ok (List.replicate MAX_SIZE 97 ++ dotCRLF)] [] =
      some (.ok (List.replicate MAX_SIZE 97)) := by
  refine ⟨?_, ?_, read_one_line_replicate MAX_SIZE⟩
  · intro rs line data hline hsize
    exact read_data_step_overflow rs line data hline hsize
  · intro db sess reads m hconn hread
    unfold handle_following_rcpt_to
    rw [hconn]
    simp only [Bool.true_eq_false, if_false, hread]

/-- Witness for C7 (amended) at concrete inputs. -/
theorem c7_amended_witness :
    read_data_until_dot [.ok [97]] (List.replicate MAX_SIZE 97) =
      some (.error msgDataTooBig) ∧
    handle_following_rcpt_to dbYes [.error (.IoError 1), .error (.IoError 2)]
      sessRcpt .DATA = ([reply354], .pending) ∧
    handle_following_rcpt_to dbYes
      [.ok (strBytes "abc"), .ok (List.replicate MAX_SIZE 98)] sessRcpt .DATA =
      ([reply354, strBytes "500 Error\r\n" ++ msgDataTooBig], .ok sessRcpt) := by
  have h := c7_amended_size_check
  refine ⟨?_, by decide, ?_⟩
  · refine h.1 [] [97] (List.replicate MAX_SIZE 97) (by decide) ?_
    rw [List.length_append, List.length_replicate]
    exact Nat.lt_add_of_pos_right (by decide)
  · refine h.2.1 dbYes sessRcpt _ msgDataTooBig rfl ?_
    have hb : dotCRLF.isSuffixOf (List.replicate MAX_SIZE 98) = false :=
      dot_not_suffix_replicate MAX_SIZE 98 (by decide)
    have hna : dotCRLF.isSuffixOf (strBytes "abc") = false := by decide
    rw [read_data_step_append _ _ _ hna (by decide), List.nil_append]
    refine h.1 [] (List.replicate MAX_SIZE 98) (strBytes "abc") hb ?_
    have h3 : (strBytes "abc" : Bytes).length = 3 := by decide
    rw [List.length_append, List.length_replicate, h3]
    omega

/-- Counterexample to C8: a chunk that is not valid UTF-8 (`0xFF` is never
allowed) does not fail the read — `read_until_crlf` and `read` return `Ok`
with the invalid byte replaced by U+FFFD (`EF BF BD`), instead of a
`CharsetConversion` error. -/
theorem c8_counterexample :
    utf8IsValid [255, 13, 10] = false ∧
    read_until_crlf [.chunk [255, 13, 10]] [] =
      some (.ok [0xEF, 0xBF, 0xBD, 13, 10]) ∧
    read { m_stream := some .Plain, socket_open := true } [.chunk [255, 13, 10]] =
      some (.ok [0xEF, 0xBF, 0xBD, 13, 10]) := by
  exact ⟨by decide, by decide, by decide⟩

/-- The accumulation loop of `read_until_crlf` only ever produces an `Ok`
result or a propagated I/O error. -/
theorem read_until_crlf_result_shape :
    ∀ (evs : List ReadEvent) (resp : Bytes) (r : Except SmartStreamError Bytes),
      read_until_crlf evs resp = some r →
      (∃ bs, r = .ok bs) ∨ ∃ e, r = .error (.IoError e) := by
  intro evs
  induction evs with
  | nil => intro resp r h; simp [read_until_crlf] at h
  | cons ev evs ih =>
    intro resp r h
    cases ev with
    | closed =>
      simp only [read_until_crlf, Option.some.injEq] at h
      exact Or.inl ⟨resp, h.symm⟩
    | ioErr e =>
      simp only [read_until_crlf, Option.some.injEq] at h
      exact Or.inr ⟨e, h.symm⟩
    | chunk bs =>
      cases bs with
      | nil =>
        simp only [read_until_crlf, Option.some.injEq] at h
        exact Or.inl ⟨resp, h.symm⟩
      | cons b bs2 =>
        by_cases hcr : (strBytes "\r\n").isSuffixOf (b :: bs2) = true
        · simp only [read_until_crlf, hcr, if_true, Option.some.injEq] at h
          exact Or.inl ⟨_, h.symm⟩
        · have hcr' : (strBytes "\r\n").isSuffixOf (b :: bs2) = false := by
            cases hx : (strBytes "\r\n").isSuffixOf (b :: bs2)
            · rfl
            · exact absurd hx hcr
          simp only [read_until_crlf, hcr', Bool.false_eq_true, if_false] at h
          exact ih _ r h

/-- C8 (amended).  A `SmartStream` read never fails with `CharsetConversion`:
invalid UTF-8 chunks are lossily converted (U+FFFD) and accumulated, and a
completed `read` is either `Ok`, a propagated I/O error, or the
`ClosedConnection` error of reading a closed stream. -/
theorem c8_amended_read_never_charset_error :
    ∀ (s : AsyncStream) (evs : List ReadEvent) (r : Except SmartStreamError Bytes),
      read s evs = some r →
      (∃ bs, r = .ok bs) ∨ (∃ e, r = .error (.IoError e)) ∨
      (∃ m, r = .error (.ClosedConnection m)) := by
  intro s evs r h
  unfold read at h
  by_cases ho : is_open s = true
  · rw [if_pos ho] at h
    rcases read_until_crlf_result_shape evs [] r h with hk | hk
    · exact Or.inl hk
    · exact Or.inr (Or.inl hk)
  · rw [if_neg ho] at h
    exact Or.inr (Or.inr ⟨_, (Option.some.inj h).symm⟩)

/-- Witness for C8 (amended) at a concrete invalid-UTF-8 read. -/
theorem c8_amended_witness :
    read { m_stream := some .Plain, socket_open := true } [.chunk [200, 13, 10]] =
      some (.ok [0xEF, 0xBF, 0xBD, 13, 10]) ∧
    ((∃ bs, (Except.ok [0xEF, 0xBF, 0xBD, 13, 10] :
        Except SmartStreamError Bytes) = .ok bs) ∨
     (∃ e, (Except.ok [0xEF, 0xBF, 0xBD, 13, 10] :
        Except SmartStreamError Bytes) = .error (.IoError e)) ∨
     (∃ m, (Except.ok [0xEF, 0xBF, 0xBD, 13, 10] :
        Except SmartStreamError Bytes) = .error (.ClosedConnection m))) := by
  refine ⟨by decide, ?_⟩
  exact c8_amended_read_never_charset_error
    { m_stream := some .Plain, socket_open := true } [.chunk [200, 13, 10]] _
    (by decide)

/-- Counterexample to C9: on a stream whose inner variant is `Encrypted` but
whose socket has died, `accept_tls` and `connect_tls` fail with
`ClosedConnection`, not with `StreamAlreadyEncrypted`. -/
theorem c9_counterexample :
    sEncClosed.m_stream = some .Encrypted ∧
    (accept_tls (.ok ()) sEncClosed).2 =
      .error (.ClosedConnection (strBytes "Error on accept_tls occured")) ∧
    (connect_tls (.ok ()) (.ok ()) sEncClosed).2 =
      .error (.ClosedConnection (strBytes "Error on connect_tls occured")) ∧
    (accept_tls (.ok ()) sEncClosed).2 ≠ .error (.Tls .StreamAlreadyEncrypted) := by
  exact ⟨rfl, by decide, by decide, by decide⟩

/-- C9 (amended).  Universally over streams whose inner variant is
`Encrypted` and over the handshake and peer-address oracles: when the stream
is open, `accept_tls` and `connect_tls` fail with `StreamAlreadyEncrypted`
and — the source having `take`n the stream before matching — leave `m_stream`
empty; when the stream is not open they fail with `ClosedConnection`
(carrying the respective source message); in every case both calls fail, and
neither they nor `close` ever bring the inner variant back to `Plain`. -/
theorem c9_amended_no_downgrade :
    ∀ (s : AsyncStream) (hs : Except Nat Unit) (p : Except Nat Unit),
      s.m_stream = some .Encrypted →
      ((is_open s = true →
         (accept_tls hs s).2 = .error (.Tls .StreamAlreadyEncrypted) ∧
         (connect_tls p hs s).2 = .error (.Tls .StreamAlreadyEncrypted) ∧
         (accept_tls hs s).1.m_stream = none ∧
         (connect_tls p hs s).1.m_stream = none) ∧
       (is_open s = false →
         (accept_tls hs s).2 =
           .error (.ClosedConnection (strBytes "Error on accept_tls occured")) ∧
         (connect_tls p hs s).2 =
           .error (.ClosedConnection (strBytes "Error on connect_tls occured"))) ∧
       (∃ e, (accept_tls hs s).2 = .error e) ∧
       (∃ e, (connect_tls p hs s).2 = .error e) ∧
       (accept_tls hs s).1.m_stream ≠ some .Plain ∧
       (connect_tls p hs s).1.m_stream ≠ some .Plain ∧
       (close s).m_stream ≠ some .Plain) := by
  intro s hs p hms
  obtain ⟨ms, so⟩ := s
  have hms' : ms = some .Encrypted := hms
  subst hms'
  cases so
  · refine ⟨fun hopen => absurd hopen (by decide), fun _ => ⟨rfl, rfl⟩,
      ⟨_, rfl⟩, ⟨_, rfl⟩, ?_, ?_, ?_⟩
    · intro hx
      exact Option.noConfusion
        (hx : (some StreamInner.Encrypted : Option StreamInner) = some .Plain)
        (fun he => StreamInner.noConfusion he)
    · intro hx
      exact Option.noConfusion
        (hx : (some StreamInner.Encrypted : Option StreamInner) = some .Plain)
        (fun he => StreamInner.noConfusion he)
    · intro hx
      exact Option.noConfusion hx
  · refine ⟨fun _ => ⟨rfl, rfl, rfl, rfl⟩, fun hclosed => absurd hclosed (by decide),
      ⟨_, rfl⟩, ⟨_, rfl⟩, ?_, ?_, ?_⟩
    · intro hx
      exact Option.noConfusion hx
    · intro hx
      exact Option.noConfusion hx
    · intro hx
      exact Option.noConfusion hx

/-- Witness for C9 (amended), instantiating the theorem on both the live and
the dead-socket encrypted streams. -/
theorem c9_amended_witness :
    (((is_open sEncOpen = true →
        (accept_tls (.ok ()) sEncOpen).2 = .error (.Tls .StreamAlreadyEncrypted) ∧
        (connect_tls (.ok ()) (.ok ()) sEncOpen).2 =
          .error (.Tls .StreamAlreadyEncrypted) ∧
        (accept_tls (.ok ()) sEncOpen).1.m_stream = none ∧
        (connect_tls (.ok ()) (.ok ()) sEncOpen).1.m_stream = none) ∧
      (is_open sEncOpen = false →
        (accept_tls (.ok ()) sEncOpen).2 =
          .error (.ClosedConnection (strBytes "Error on accept_tls occured")) ∧
        (connect_tls (.ok ()) (.ok ()) sEncOpen).2 =
          .error (.ClosedConnection (strBytes "Error on connect_tls occured"))) ∧
      (∃ e, (accept_tls (.ok ()) sEncOpen).2 = .error e) ∧
      (∃ e, (connect_tls (.ok ()) (.ok ()) sEncOpen).2 = .error e) ∧
      (accept_tls (.ok ()) sEncOpen).1.m_stream ≠ some .Plain ∧
      (connect_tls (.ok ()) (.ok ()) sEncOpen).1.m_stream ≠ some .Plain ∧
      (close sEncOpen).m_stream ≠ some .Plain) ∧
     ((is_open sEncClosed = true →
        (accept_tls (.error 5) sEncClosed).2 = .error (.Tls .StreamAlreadyEncrypted) ∧
        (connect_tls (.error 6) (.error 5) sEncClosed).2 =
          .error (.Tls .StreamAlreadyEncrypted) ∧
        (accept_tls (.error 5) sEncClosed).1.m_stream = none ∧
        (connect_tls (.error 6) (.error 5) sEncClosed).1.m_stream = none) ∧
      (is_open sEncClosed = false →
        (accept_tls (.error 5) sEncClosed).2 =
          .error (.ClosedConnection (strBytes "Error on accept_tls occured")) ∧
        (connect_tls (.error 6) (.error 5) sEncClosed).2 =
          .error (.ClosedConnection (strBytes "Error on connect_tls occured"))) ∧
      (∃ e, (accept_tls (.error 5) sEncClosed).2 = .error e) ∧
      (∃ e, (connect_tls (.error 6) (.error 5) sEncClosed).2 = .error e) ∧
      (accept_tls (.error 5) sEncClosed).1.m_stream ≠ some .Plain ∧
      (connect_tls (.error 6) (.error 5) sEncClosed).1.m_stream ≠ some .Plain ∧
      (close sEncClosed).m_stream ≠ some .Plain)) :=
  ⟨c9_amended_no_downgrade sEncOpen (.ok ()) (.ok ()) rfl,
   c9_amended_no_downgrade sEncClosed (.error 5) (.error 6) rfl⟩

/-- Witness for C10 at the concrete always-pending task. -/
theorem c10_witness :
    ((pollTask tW).1 = Poll.Pending →
       (runIter stW).global_queue = [] ++ [(pollTask tW).2]) ∧
    (∃ u ∈ (runIter^[3] stW).global_queue, u.id = 0 ∧
       ∀ m, u.polls m = Poll.Pending) := by
  have h := c10_pending_requeued_ready_dropped stW tW [] rfl rfl
  exact ⟨h.1, h.2.2 3 0 ⟨tW, by simp [stW], rfl, fun m => rfl⟩⟩

end SmtpServer
